import Mathlib

/-!
# Presence & Delivery Router — verification development

Shallow embedding of the realtime chat delivery mechanism of the
`public_backend` repository (Go).  Two variants are modelled, following the
code places the specification's testable properties point at:

* the `net/http` + socket.io variant (`src/unnamed/part_000`): global
  `activeUsers` map (socket ID → username), `user_online` registration,
  `send_message` handler (sets `CreatedAt`, inserts into Mongo, broadcasts
  `receive_message`), `OnDisconnect` cleanup;
* the gin variant (`src/main.go`): `chatMessage` socket handler
  (inserts the raw string map, broadcasts to the namespace) and the REST
  `sendMessageHandler` (binds JSON into a string map, stamps `createdAt`,
  inserts, broadcasts, answers an HTTP status).

Machine maps (`map[string]string`) are modelled as association lists with
unique keys; Mongo's `InsertOne` is modelled as an append together with a
boolean oracle telling whether the write succeeded.  The go-socket.io
broadcast primitives are modelled per their room semantics:
`BroadcastToNamespace` delivers one push to every live connection of the
namespace, while `BroadcastToRoom` delivers one push to each member of the
named room — and connections only belong to a room after an explicit
`Join`.  The `part_000` variant never calls `Join` (its `OnConnect` only
logs, unlike the sibling iterations that join "global" before broadcasting
to it), so its `send_message` broadcast to room "" reaches no connection.
Timestamps are abstracted to `Nat`; `time.Time.Format` becomes decimal
rendering.
-/

namespace PublicBackend

/-- Socket identifiers (`s.ID()` in go-socket.io) are strings. -/
abbrev SocketId := String

/-- User identifiers (usernames) are strings. -/
abbrev UserName := String

/-- The `Message` struct of the Go code: sender, receiver, body (the Go
field is called `Message`, bson key `message`) and creation timestamp. -/
structure Message where
  sender : String
  receiver : String
  message : String
  createdAt : Nat
deriving DecidableEq, Repr

/-- A Go `map[string]string` (the duck-typed payloads of `src/main.go`),
modelled as an association list with unique keys. -/
abbrev StrMap := List (String × String)

/-- `m[k] = v` on a Go string map: overwrite the entry whose key is `k`
when present, otherwise add a new entry. -/
def mapSet : StrMap → String → String → StrMap
  | [], k, v => [(k, v)]
  | p :: m, k, v => if p.1 = k then (k, v) :: m else p :: mapSet m k v

/-- `m[k]` lookup on a Go string map. -/
def mapGet : StrMap → String → Option String
  | [], _ => none
  | p :: m, k => if p.1 = k then some p.2 else mapGet m k

/-- `delete(m, k)` on a Go string map. -/
def mapDel (m : StrMap) (k : String) : StrMap :=
  m.filter (fun p => p.1 ≠ k)

/-- One observable side effect of a message-submit handler: a database
insert (with the oracle's verdict) or a `receive_message` push to one
live connection.  `α` is the record/payload type of the variant. -/
inductive Effect (α : Type) where
  | dbInsert (rec : α) (ok : Bool)
  | push (target : SocketId) (payload : α)
deriving DecidableEq, Repr

/-- Number of pushes a trace delivers to the connection `h`. -/
def countPushes {α : Type} (tr : List (Effect α)) (h : SocketId) : Nat :=
  (tr.filter (fun e => match e with
    | .push g _ => g == h
    | _ => false)).length

/-- The connections a trace pushes to, in delivery order. -/
def pushedTo {α : Type} (tr : List (Effect α)) : List SocketId :=
  tr.filterMap (fun e => match e with
    | .push g _ => some g
    | _ => none)

/-- The pushes of a trace, with their payloads, in delivery order. -/
def pushEvents {α : Type} (tr : List (Effect α)) : List (SocketId × α) :=
  tr.filterMap (fun e => match e with
    | .push g p => some (g, p)
    | _ => none)

/-! ## Variant 1: `src/unnamed/part_000` (socket.io + activeUsers map) -/

/-- Server state of the `part_000` variant: the live connections of the
namespace, the `activeUsers` registry (socket ID → username, exactly as the
Go global `var activeUsers = make(map[string]string)`), and the Mongo
`messages` collection. -/
structure ServerState where
  live : List SocketId
  activeUsers : List (SocketId × UserName)
  messagesColl : List Message
deriving DecidableEq, Repr

/-- `server.OnConnect`: the transport adds a live connection; the handler
only logs, the registry is untouched. -/
def onConnect (st : ServerState) (s : SocketId) : ServerState :=
  { st with live := st.live ++ [s] }

/-- `server.OnEvent "/" "user_online"`: unconditionally stores
`activeUsers[s.ID()] = username` under the mutex, then broadcasts the
active-user list (an `active_users` event, not a message push; not
modelled further). -/
def userOnline (st : ServerState) (s : SocketId) (username : UserName) :
    ServerState :=
  { st with activeUsers := mapSet st.activeUsers s username }

/-- Membership of a socket.io room in the `part_000` variant.  A room
broadcast reaches only the connections that explicitly joined that room,
and no handler of this variant ever calls `Join` — `OnConnect` only logs —
so every room, in particular the room "" that `send_message` broadcasts
to, has no members. -/
def roomMembers (_room : String) : List SocketId := []

/-- `server.OnEvent "/" "send_message"`: stamp `msg.CreatedAt = time.Now()`,
`InsertOne` the record; on insert error log and return (no broadcast);
otherwise `BroadcastToRoom "/" "" "receive_message"` — a broadcast to the
members of room "", of which there are none, so no connection receives a
push.  Returns the new state, the effect trace, and the handler outcome
(the `error` branch models the logged-insert-error early return). -/
def sendMessage (st : ServerState) (msg : Message) (now : Nat)
    (insertOk : Bool) : ServerState × List (Effect Message) × Except String Unit :=
  let stamped : Message := { msg with createdAt := now }
  if insertOk then
    ({ st with messagesColl := st.messagesColl ++ [stamped] },
     Effect.dbInsert stamped true ::
       (roomMembers "").map (fun h => Effect.push h stamped),
     Except.ok ())
  else
    (st, [Effect.dbInsert stamped false], Except.error "DB insert error")

/-- `server.OnDisconnect`: the transport removes the connection from the
namespace; the handler deletes `activeUsers[s.ID()]` (a keyed delete — the
entry is identified by the connection handle, never by username) and logs
the reason. -/
def onDisconnect (st : ServerState) (s : SocketId) : ServerState :=
  { st with live := st.live.erase s,
            activeUsers := mapDel st.activeUsers s }

/-- Well-formedness maintained by the transport and the mutex: connection
IDs are unique, the registry has at most one entry per socket ID, and every
registered socket is still connected. -/
def WF (st : ServerState) : Prop :=
  st.live.Nodup ∧ (st.activeUsers.map Prod.fst).Nodup ∧
    ∀ p ∈ st.activeUsers, p.1 ∈ st.live

instance (st : ServerState) : Decidable (WF st) := by
  unfold WF; infer_instance

/-- A wire payload before JSON decoding: each field may be absent.
`encoding/json` fills absent fields of the `Message` struct with their zero
values. -/
structure RawPayload where
  hasSender : Option String
  hasReceiver : Option String
  hasMessage : Option String
  hasCreatedAt : Option Nat
deriving DecidableEq, Repr

/-- JSON decoding of a wire payload into the `Message` struct: missing
fields become the zero value (`""`, time zero). -/
def decodeMessage (p : RawPayload) : Message :=
  { sender := p.hasSender.getD ""
    receiver := p.hasReceiver.getD ""
    message := p.hasMessage.getD ""
    createdAt := p.hasCreatedAt.getD 0 }

/-! ## Variant 2: `src/main.go` (gin + namespace broadcast) -/

/-- Server state of the gin variant: live connections and the Mongo
`messages` collection of string-map records.  This variant keeps no
user registry at all. -/
structure GinState where
  live : List SocketId
  messagesCollection : List StrMap
deriving DecidableEq, Repr

/-- `server.OnEvent "/" "chatMessage"` of `src/main.go`: `InsertOne` the
raw string map exactly as received (no timestamp is assigned); on error log
and return, otherwise `BroadcastToNamespace "/" "chatMessage"`. -/
def chatMessage (st : GinState) (msg : StrMap) (insertOk : Bool) :
    GinState × List (Effect StrMap) × Except String Unit :=
  if insertOk then
    ({ st with messagesCollection := st.messagesCollection ++ [msg] },
     Effect.dbInsert msg true :: st.live.map (fun h => Effect.push h msg),
     Except.ok ())
  else
    (st, [Effect.dbInsert msg false], Except.error "Failed to save chat message")

/-- `time.Now().Format(time.RFC3339)` under the `Nat` time abstraction:
decimal rendering of the instant. -/
def formatRFC3339 (t : Nat) : String := toString t

/-- The REST `sendMessageHandler` of `src/main.go`: `BindJSON` into a
string map (`none` models a syntactically invalid body → 400), stamp
`msg["createdAt"]`, `InsertOne` (error → 500, before any broadcast),
broadcast `chatMessage` to the namespace, answer 200. -/
def sendMessageHandler (st : GinState) (body : Option StrMap) (now : Nat)
    (insertOk : Bool) : GinState × List (Effect StrMap) × Nat :=
  match body with
  | none => (st, [], 400)
  | some msg =>
    let stamped := mapSet msg "createdAt" (formatRFC3339 now)
    if insertOk then
      ({ st with messagesCollection := st.messagesCollection ++ [stamped] },
       Effect.dbInsert stamped true :: st.live.map (fun h => Effect.push h stamped),
       200)
    else
      (st, [Effect.dbInsert stamped false], 500)

/-! ## Helper lemmas -/

/-- A database-insert effect contributes no push. -/
theorem countPushes_dbInsert_cons {α : Type} (r : α) (b : Bool)
    (tr : List (Effect α)) (h : SocketId) :
    countPushes (Effect.dbInsert r b :: tr) h = countPushes tr h := by
  simp [countPushes]

/-- A broadcast pushes to `h` as many times as `h` occurs among the live
connections. -/
theorem countPushes_map_push {α : Type} (l : List SocketId) (m : α)
    (h : SocketId) :
    countPushes (l.map (fun g => Effect.push g m)) h = l.count h := by
  induction l with
  | nil => rfl
  | cons a l ih =>
    by_cases hah : a = h
    · subst hah
      simp [countPushes, List.count_cons] at ih ⊢
      omega
    · simp [countPushes, List.count_cons, hah] at ih ⊢
      exact ih

/-- With distinct connection IDs, a live connection receives exactly one
push from a broadcast. -/
theorem countPushes_map_push_of_nodup {α : Type} {l : List SocketId}
    {h : SocketId} (hn : l.Nodup) (hm : h ∈ l) (m : α) :
    countPushes (l.map (fun g => Effect.push g m)) h = 1 := by
  rw [countPushes_map_push]
  exact List.count_eq_one_of_mem hn hm

/-- A connection that is not live receives no push from a broadcast. -/
theorem countPushes_map_push_of_not_mem {α : Type} {l : List SocketId}
    {h : SocketId} (hm : h ∉ l) (m : α) :
    countPushes (l.map (fun g => Effect.push g m)) h = 0 := by
  rw [countPushes_map_push]
  exact List.count_eq_zero_of_not_mem hm

/-- The targets of a broadcast trace are exactly the live connections. -/
theorem pushedTo_map_push {α : Type} (l : List SocketId) (m : α) :
    pushedTo (l.map (fun g => Effect.push g m)) = l := by
  induction l with
  | nil => rfl
  | cons a l ih => simpa [pushedTo] using ih

/-- A database-insert effect contributes no push target. -/
theorem pushedTo_dbInsert_cons {α : Type} (r : α) (b : Bool)
    (tr : List (Effect α)) :
    pushedTo (Effect.dbInsert r b :: tr) = pushedTo tr := by
  simp [pushedTo]

/-- The pushes of a broadcast trace pair each live connection with the
payload. -/
theorem pushEvents_map_push {α : Type} (l : List SocketId) (m : α) :
    pushEvents (l.map (fun g => Effect.push g m)) = l.map (fun g => (g, m)) := by
  induction l with
  | nil => rfl
  | cons a l ih => simpa [pushEvents] using ih

/-- A database-insert effect contributes no push event. -/
theorem pushEvents_dbInsert_cons {α : Type} (r : α) (b : Bool)
    (tr : List (Effect α)) :
    pushEvents (Effect.dbInsert r b :: tr) = pushEvents tr := by
  simp [pushEvents]

/-- Setting a key makes it present with the written value. -/
theorem mapGet_mapSet (m : StrMap) (k v : String) :
    mapGet (mapSet m k v) k = some v := by
  induction m with
  | nil => simp [mapSet, mapGet]
  | cons p m ih =>
    by_cases hpk : p.1 = k
    · simp [mapSet, mapGet, hpk]
    · simp [mapSet, mapGet, hpk, ih]

/-- Setting a key leaves every other key unchanged. -/
theorem mapGet_mapSet_ne (m : StrMap) (k k2 v : String) (hne : k ≠ k2) :
    mapGet (mapSet m k v) k2 = mapGet m k2 := by
  induction m with
  | nil => simp [mapSet, mapGet, hne]
  | cons p m ih =>
    by_cases hpk : p.1 = k
    · simp [mapSet, mapGet, hpk, hne]
    · by_cases hpk2 : p.1 = k2
      · simp [mapSet, mapGet, hpk, hpk2, Ne.symm hne]
      · simp [mapSet, mapGet, hpk, hpk2, ih]

/-! ## Claims -/

/-- C1, counterexample: the claim says the registered handle of the sender
receives exactly one push; `send_message` broadcasts to room "", which no
connection ever joins, so the registered, still-live handle "H1" of sender
"alice" receives zero pushes. -/
theorem C1_counterexample :
    ("H1", "alice") ∈ (ServerState.mk ["H1", "H2", "H3"]
        [("H1", "alice"), ("H2", "bob"), ("H3", "carol")] []).activeUsers ∧
    "H1" ∈ (ServerState.mk ["H1", "H2", "H3"]
        [("H1", "alice"), ("H2", "bob"), ("H3", "carol")] []).live ∧
    countPushes (sendMessage
        (ServerState.mk ["H1", "H2", "H3"]
          [("H1", "alice"), ("H2", "bob"), ("H3", "carol")] [])
        (Message.mk "alice" "bob" "hi" 0) 5 true).2.1 "H1" = 0 := by
  decide

/-- C1 (amended): a SubmitMessage through `send_message` results in zero
pushes to every connection — registered to the sender, the receiver,
another identifier, or not at all — because the broadcast goes to room "",
which has no members; the record is still persisted.  In particular,
connections registered under other identifiers receive no push, as the
claim states, but the addressed handles receive none either. -/
theorem C1_amended (st : ServerState) (h : SocketId) (msg : Message)
    (now : Nat) :
    countPushes (sendMessage st msg now true).2.1 h = 0 ∧
    (sendMessage st msg now true).1.messagesColl =
        st.messagesColl ++ [{ msg with createdAt := now }] :=
  ⟨rfl, rfl⟩

/-- C3: every submit path persists the record before any delivery push (the
database insert is the head of the effect trace), and a failed insert
yields zero pushes, a signalled failure (logged early return for the socket
handlers, HTTP 500 for the REST handler) and an unchanged state — in
particular an unchanged registry. -/
theorem C3_persist_before_delivery (st : ServerState) (gst : GinState)
    (msg : Message) (raw : StrMap) (now : Nat) :
    ((sendMessage st msg now true).2.1.head? =
        some (Effect.dbInsert { msg with createdAt := now } true)) ∧
    pushedTo (sendMessage st msg now false).2.1 = [] ∧
    (sendMessage st msg now false).2.2 = Except.error "DB insert error" ∧
    (sendMessage st msg now false).1 = st ∧
    ((chatMessage gst raw true).2.1.head? = some (Effect.dbInsert raw true)) ∧
    pushedTo (chatMessage gst raw false).2.1 = [] ∧
    (chatMessage gst raw false).2.2 =
        Except.error "Failed to save chat message" ∧
    (chatMessage gst raw false).1 = gst ∧
    ((sendMessageHandler gst (some raw) now true).2.1.head? =
        some (Effect.dbInsert (mapSet raw "createdAt" (formatRFC3339 now)) true)) ∧
    pushedTo (sendMessageHandler gst (some raw) now false).2.1 = [] ∧
    (sendMessageHandler gst (some raw) now false).2.2 = 500 ∧
    (sendMessageHandler gst (some raw) now false).1 = gst :=
  ⟨rfl, rfl, rfl, rfl, rfl, rfl, rfl, rfl, rfl, rfl, rfl, rfl⟩

/-- C6: the persisted record's creation timestamp is the server-side clock
value at persistence time — `send_message` stores `createdAt = now`
whatever the payload carried, the whole submit outcome is independent of
the client-supplied timestamp, and the REST handler stores
`createdAt = formatRFC3339 now`, overwriting any client-supplied value. -/
theorem C6_server_side_timestamp (st : ServerState) (gst : GinState)
    (msg : Message) (raw : StrMap) (now c : Nat) (b : Bool) :
    (sendMessage st msg now true).1.messagesColl =
        st.messagesColl ++ [{ msg with createdAt := now }] ∧
    sendMessage st { msg with createdAt := c } now b = sendMessage st msg now b ∧
    (sendMessageHandler gst (some raw) now true).1.messagesCollection =
        gst.messagesCollection ++ [mapSet raw "createdAt" (formatRFC3339 now)] ∧
    mapGet (mapSet raw "createdAt" (formatRFC3339 now)) "createdAt" =
        some (formatRFC3339 now) :=
  ⟨rfl, rfl, rfl, mapGet_mapSet raw "createdAt" (formatRFC3339 now)⟩

/-- C8: a submit whose persistence succeeds reports success — `Except.ok`
for the socket handler, HTTP 200 for the REST handler — and appends the
record to the store, for every registry contents; the observable outcome
(trace and result) of `send_message` is literally independent of the
registry, so an unregistered recipient is no error and changes nothing
about the submit. -/
theorem C8_success_regardless_of_registry (l : List SocketId)
    (r r2 : List (SocketId × UserName)) (mc : List Message)
    (gst : GinState) (msg : Message) (raw : StrMap) (now : Nat) (b : Bool) :
    (sendMessage (ServerState.mk l r mc) msg now true).2.2 = Except.ok () ∧
    (sendMessage (ServerState.mk l r mc) msg now true).1.messagesColl =
        mc ++ [{ msg with createdAt := now }] ∧
    (sendMessage (ServerState.mk l r mc) msg now b).2 =
        (sendMessage (ServerState.mk l r2 mc) msg now b).2 ∧
    (sendMessageHandler gst (some raw) now true).2.2 = 200 ∧
    (sendMessageHandler gst (some raw) now true).1.messagesCollection =
        gst.messagesCollection ++ [mapSet raw "createdAt" (formatRFC3339 now)] := by
  refine ⟨rfl, rfl, ?_, rfl, rfl⟩
  cases b <;> rfl

/-- C2: after `Disconnect(h)` every subsequent SubmitMessage produces zero
pushes while the record is still persisted.  The disconnect removes the
handle's registry entry (so no newer registration for its user exists),
and `send_message` — broadcasting to the member-less room "" — delivers no
push to any connection, in particular none to the former user's handle. -/
theorem C2_zero_pushes_after_disconnect (st : ServerState) (h : SocketId)
    (msg : Message) (now : Nat) :
    (∀ u : UserName, (h, u) ∉ (onDisconnect st h).activeUsers) ∧
    pushedTo (sendMessage (onDisconnect st h) msg now true).2.1 = [] ∧
    (sendMessage (onDisconnect st h) msg now true).1.messagesColl =
        st.messagesColl ++ [{ msg with createdAt := now }] := by
  refine ⟨fun u hu => ?_, rfl, rfl⟩
  simp [onDisconnect, mapDel, List.mem_filter] at hu

/-- Witness for C2 at a concrete disconnected handle. -/
theorem C2_zero_pushes_after_disconnect_witness :
    ("H1", "alice") ∉ (onDisconnect
        (ServerState.mk ["H1", "H2"] [("H1", "alice")] []) "H1").activeUsers ∧
    pushedTo (sendMessage
        (onDisconnect (ServerState.mk ["H1", "H2"] [("H1", "alice")] []) "H1")
        (Message.mk "bob" "alice" "bye" 0) 9 true).2.1 = [] :=
  ⟨(C2_zero_pushes_after_disconnect
      (ServerState.mk ["H1", "H2"] [("H1", "alice")] []) "H1"
      (Message.mk "bob" "alice" "bye" 0) 9).1 "alice",
   (C2_zero_pushes_after_disconnect
      (ServerState.mk ["H1", "H2"] [("H1", "alice")] []) "H1"
      (Message.mk "bob" "alice" "bye" 0) 9).2.1⟩

/-- C4, counterexample: the claim says a second registration for the same
user identifier overwrites the first and later submits push (only) to the
new handle H2; in the code the registry is keyed by socket ID, so both
entries remain, and the room-"" broadcast pushes to nobody, so H2 receives
zero pushes rather than the claimed delivery. -/
theorem C4_counterexample :
    (userOnline (userOnline (ServerState.mk ["H1", "H2"] [] []) "H1" "U")
        "H2" "U").activeUsers = [("H1", "U"), ("H2", "U")] ∧
    countPushes (sendMessage
        (userOnline (userOnline (ServerState.mk ["H1", "H2"] [] []) "H1" "U")
          "H2" "U")
        (Message.mk "x" "U" "hi" 0) 3 true).2.1 "H2" = 0 := by
  decide

/-- C4 (amended): the registry maps each connection handle to at most one
user identifier; `Register(H2, U)` after `Register(H1, U)` keeps both
entries (no overwrite by user identifier), and a later successful
SubmitMessage pushes to neither H2 nor H1 — `send_message` broadcasts to
the member-less room "", so it never pushes to the old handle, but not to
the new one either. -/
theorem C4_amended (st : ServerState) (h1 h2 : SocketId) (u : UserName)
    (msg : Message) (now : Nat) (hne : h1 ≠ h2) :
    mapGet (userOnline (userOnline st h1 u) h2 u).activeUsers h1 = some u ∧
    mapGet (userOnline (userOnline st h1 u) h2 u).activeUsers h2 = some u ∧
    countPushes (sendMessage (userOnline (userOnline st h1 u) h2 u)
        msg now true).2.1 h1 = 0 ∧
    countPushes (sendMessage (userOnline (userOnline st h1 u) h2 u)
        msg now true).2.1 h2 = 0 := by
  have hreg : (userOnline (userOnline st h1 u) h2 u).activeUsers =
      mapSet (mapSet st.activeUsers h1 u) h2 u := rfl
  refine ⟨?_, ?_, rfl, rfl⟩
  · rw [hreg, mapGet_mapSet_ne _ _ _ _ (Ne.symm hne), mapGet_mapSet]
  · rw [hreg, mapGet_mapSet]

/-- Witness for C4 (amended) at two concrete handles for the same user. -/
theorem C4_amended_witness :
    mapGet (userOnline (userOnline (ServerState.mk ["H1", "H2"] [] []) "H1" "U")
        "H2" "U").activeUsers "H1" = some "U" ∧
    mapGet (userOnline (userOnline (ServerState.mk ["H1", "H2"] [] []) "H1" "U")
        "H2" "U").activeUsers "H2" = some "U" ∧
    countPushes (sendMessage
        (userOnline (userOnline (ServerState.mk ["H1", "H2"] [] []) "H1" "U")
          "H2" "U") (Message.mk "x" "U" "hi" 0) 3 true).2.1 "H1" = 0 ∧
    countPushes (sendMessage
        (userOnline (userOnline (ServerState.mk ["H1", "H2"] [] []) "H1" "U")
          "H2" "U") (Message.mk "x" "U" "hi" 0) 3 true).2.1 "H2" = 0 :=
  C4_amended (ServerState.mk ["H1", "H2"] [] []) "H1" "H2" "U"
    (Message.mk "x" "U" "hi" 0) 3 (by decide)

/-- C5, counterexample: the claim says the push set of a successfully
persisted submit is exactly the set of currently connected clients; for
`send_message` (a cited source of the claim) the push set is empty even
with a client connected, because the broadcast goes to the member-less
room "". -/
theorem C5_counterexample :
    pushedTo (sendMessage (ServerState.mk ["H1"] [] [])
        (Message.mk "alice" "bob" "hi" 0) 4 true).2.1 = [] ∧
    (ServerState.mk ["H1"] [] []).live ≠ ([] : List SocketId) := by
  decide

/-- C5 (amended): the pushes of a successfully persisted submit are
independent of the registry contents and of the message's sender and
receiver fields, but the push set is not the connected-client set on every
path: `send_message` (room-"" broadcast) pushes to no connection at all,
while `chatMessage` (namespace broadcast) pushes exactly to the live
connections; on both paths, two executions from states with the same live
connections and different registries produce identical pushes. -/
theorem C5_amended (st st2 : ServerState) (gst gst2 : GinState)
    (msg : Message) (raw : StrMap) (now : Nat) (hlive : gst.live = gst2.live) :
    pushedTo (sendMessage st msg now true).2.1 = [] ∧
    pushEvents (sendMessage st msg now true).2.1 =
        pushEvents (sendMessage st2 msg now true).2.1 ∧
    pushedTo (chatMessage gst raw true).2.1 = gst.live ∧
    pushEvents (chatMessage gst raw true).2.1 =
        pushEvents (chatMessage gst2 raw true).2.1 := by
  have h3 : (chatMessage gst raw true).2.1 =
      Effect.dbInsert raw true ::
        gst.live.map (fun g => Effect.push g raw) := rfl
  have h4 : (chatMessage gst2 raw true).2.1 =
      Effect.dbInsert raw true ::
        gst2.live.map (fun g => Effect.push g raw) := rfl
  refine ⟨rfl, rfl, ?_, ?_⟩
  · rw [h3, pushedTo_dbInsert_cons, pushedTo_map_push]
  · rw [h3, h4, pushEvents_dbInsert_cons, pushEvents_dbInsert_cons,
      pushEvents_map_push, pushEvents_map_push, hlive]

/-- Witness for C5 (amended) at two concrete gin states with the same live
connections; the `ServerState` arguments carry different registries. -/
theorem C5_amended_witness :
    pushEvents (chatMessage (GinState.mk ["H1", "H2"] [])
        [("sender", "alice")] true).2.1 =
    pushEvents (chatMessage (GinState.mk ["H1", "H2"] [[("x", "y")]])
        [("sender", "alice")] true).2.1 :=
  (C5_amended
    (ServerState.mk ["H1", "H2"] [("H1", "alice")] [])
    (ServerState.mk ["H1", "H2"] [("H2", "zed")] [])
    (GinState.mk ["H1", "H2"] []) (GinState.mk ["H1", "H2"] [[("x", "y")]])
    (Message.mk "alice" "bob" "hi" 0) [("sender", "alice")] 4 rfl).2.2.2

/-- C7, counterexample: the claim says a payload missing sender, receiver
and body is rejected before persistence with no insert and no push; the
REST handler accepts the empty JSON object, persists it (with only the
server timestamp) and broadcasts it, answering 200. -/
theorem C7_counterexample :
    (sendMessageHandler (GinState.mk ["H1"] []) (some []) 7 true).2.2 = 200 ∧
    (sendMessageHandler (GinState.mk ["H1"] []) (some []) 7 true).1.messagesCollection
        = [[("createdAt", "7")]] ∧
    countPushes (sendMessageHandler (GinState.mk ["H1"] []) (some []) 7 true).2.1
        "H1" = 1 := by
  decide

/-- C7 (amended): no field validation exists — a payload whose sender,
receiver or body is missing is decoded to empty-string fields and
persisted like any other (then handed to the variant's broadcast: to the
member-less room "" for `send_message`, to the whole namespace for the
REST handler); only a syntactically invalid REST body is rejected (status
400), before persistence, with no insert and no push. -/
theorem C7_amended (st : ServerState) (gst : GinState) (p : RawPayload)
    (raw : StrMap) (now : Nat) :
    (sendMessage st (decodeMessage p) now true).1.messagesColl =
        st.messagesColl ++ [{ decodeMessage p with createdAt := now }] ∧
    (sendMessage st (decodeMessage p) now true).2.2 = Except.ok () ∧
    sendMessageHandler gst none now true = (gst, [], 400) ∧
    (sendMessageHandler gst (some raw) now true).1.messagesCollection =
        gst.messagesCollection ++ [mapSet raw "createdAt" (formatRFC3339 now)] ∧
    pushedTo (sendMessageHandler gst (some raw) now true).2.1 = gst.live := by
  have h2 : (sendMessageHandler gst (some raw) now true).2.1 =
      Effect.dbInsert (mapSet raw "createdAt" (formatRFC3339 now)) true ::
        gst.live.map (fun g =>
          Effect.push g (mapSet raw "createdAt" (formatRFC3339 now))) := rfl
  refine ⟨rfl, rfl, rfl, rfl, ?_⟩
  rw [h2, pushedTo_dbInsert_cons, pushedTo_map_push]

/-- C9, counterexample: the claim says registering an empty user identifier
is ignored and leaves the registry unchanged; the `user_online` handler
stores the empty username unconditionally, so the registry changes. -/
theorem C9_counterexample :
    (userOnline (ServerState.mk ["H1"] [] []) "H1" "").activeUsers
        = [("H1", "")] ∧
    (userOnline (ServerState.mk ["H1"] [] []) "H1" "").activeUsers ≠
        ([] : List (SocketId × UserName)) := by
  decide

/-- C9 (amended): registering an empty user identifier is not ignored — the
handle is mapped to the empty identifier exactly like any other value — and
no registration (empty or duplicate identifier) ever raises an error: the
handler is total and the written entry is always present afterwards. -/
theorem C9_amended (st : ServerState) (s s2 : SocketId) (u : UserName) :
    mapGet (userOnline st s "").activeUsers s = some "" ∧
    mapGet (userOnline (userOnline st s u) s2 u).activeUsers s2 = some u :=
  ⟨mapGet_mapSet st.activeUsers s "",
   mapGet_mapSet (mapSet st.activeUsers s u) s2 u⟩

/-- C10: the disconnect handler removes the registry entry of exactly the
disconnecting handle — the entry is identified by socket ID, never by user
identifier — so no stale handle survives its own disconnect; entries of
other handles are untouched, and disconnecting a never-registered handle
leaves the registry unchanged (and never errors: the handler is total). -/
theorem C10_disconnect_by_handle (st : ServerState) (h : SocketId) :
    (∀ u : UserName, (h, u) ∉ (onDisconnect st h).activeUsers) ∧
    (∀ p, p ∈ st.activeUsers → p.1 ≠ h → p ∈ (onDisconnect st h).activeUsers) ∧
    ((∀ p, p ∈ st.activeUsers → p.1 ≠ h) →
      (onDisconnect st h).activeUsers = st.activeUsers) := by
  refine ⟨fun u hu => ?_, fun p hp hne => ?_, fun hall => ?_⟩
  · simp [onDisconnect, mapDel, List.mem_filter] at hu
  · simp only [onDisconnect, mapDel, List.mem_filter]
    exact ⟨hp, by simpa using hne⟩
  · simp only [onDisconnect, mapDel]
    exact List.filter_eq_self.mpr (fun a ha => by simpa using hall a ha)

/-- Witness for C10: a registered handle is purged on its disconnect, a
differently-keyed entry survives, and a never-registered handle's
disconnect changes nothing. -/
theorem C10_disconnect_by_handle_witness :
    ("H1", "alice") ∉ (onDisconnect
        (ServerState.mk ["H1", "H2"] [("H1", "alice"), ("H2", "bob")] [])
        "H1").activeUsers ∧
    ("H2", "bob") ∈ (onDisconnect
        (ServerState.mk ["H1", "H2"] [("H1", "alice"), ("H2", "bob")] [])
        "H1").activeUsers ∧
    (onDisconnect (ServerState.mk ["H2"] [("H2", "bob")] []) "H1").activeUsers
        = [("H2", "bob")] :=
  ⟨(C10_disconnect_by_handle
      (ServerState.mk ["H1", "H2"] [("H1", "alice"), ("H2", "bob")] [])
      "H1").1 "alice",
   (C10_disconnect_by_handle
      (ServerState.mk ["H1", "H2"] [("H1", "alice"), ("H2", "bob")] [])
      "H1").2.1 ("H2", "bob") (by decide) (by decide),
   (C10_disconnect_by_handle
      (ServerState.mk ["H2"] [("H2", "bob")] []) "H1").2.2 (by decide)⟩

end PublicBackend
